import Mathlib

/-!
Verification of marker's `OllamaService` (src/marker/services/ollama.py) and
`PdfConverter` (src/marker/converters/pdf.py), as a shallow embedding.
-/

namespace OllamaService

/-- What extracting the `"response"` field of the backend body yields at a
given attempt: present and valid JSON (`good`), present but failing
`json.loads` (`malformed`), or absent, so the dict lookup raises (`missing`). -/
inductive RespField : Type
  | good
  | malformed
  | missing
deriving DecidableEq, Repr

/-- Outcome of one `requests.post` HTTP attempt, as seen by the exception
handlers of `OllamaService.__call__`:
* `ok p e r` — `raise_for_status` passed, `response.json()` parsed, with
  optional usage counts `prompt_eval_count = p`, `eval_count = e`, and the
  `"response"` field behaving as `r`;
* `httpError s` — `raise_for_status` raised `requests.exceptions.HTTPError`,
  the response's HTTP status code being `s` (`raise_for_status` raises
  precisely when `400 ≤ s < 600`);
* `jsonError` — `response.json()` raised `json.JSONDecodeError`;
* `transportError` — a non-HTTPError `requests.exceptions.RequestException`
  (connection error, timeout, ...);
* `otherError` — any other exception (the catch-all handler). -/
inductive AttemptOutcome : Type
  | ok (promptEval evalCount : Option Nat) (resp : RespField)
  | httpError (status : Nat)
  | jsonError
  | transportError
  | otherError
deriving DecidableEq, Repr

/-- The retry-relevant configuration of the service
(`BaseService.max_retries`, `BaseService.retry_wait_time`). -/
structure Config : Type where
  max_retries : Nat
  retry_wait_time : Nat
deriving DecidableEq, Repr

/-- The JSON schema returned by `response_schema.model_json_schema()`, kept
abstract as the optional presence of its `properties`, `required` and `$defs`
entries (each carrying its list of keys). A `none` field means the key is
absent from the dict, so subscripting raises `KeyError`. -/
structure JsonSchema : Type where
  properties : Option (List String)
  required : Option (List String)
  defs : Option (List String)
deriving DecidableEq, Repr

/-- The `format_schema` dict built by `OllamaService.__call__` and placed in
the request payload's `format` field. -/
structure FormatSchema : Type where
  properties : List String
  required : List String
  defs : Option (List String)
deriving DecidableEq, Repr

/-- Schema preparation (ollama.py lines 81-91): subscript `schema["properties"]`
then `schema["required"]` (raising `KeyError` on a missing key, in that
order), and copy `$defs` into the format schema exactly when present. -/
def buildFormatSchema (schema : JsonSchema) : Except String FormatSchema :=
  match schema.properties with
  | none => .error "properties"
  | some ps =>
    match schema.required with
    | none => .error "required"
    | some rs => .ok { properties := ps, required := rs, defs := schema.defs }

/-- How `OllamaService.__call__` terminates: returning the parsed mapping
(`success`), returning the empty mapping `{}` (`empty`), or propagating an
uncaught `KeyError` for the named key (`keyError`). -/
inductive CallResult : Type
  | success
  | empty
  | keyError (key : String)
deriving DecidableEq, Repr

/-- Accumulated observable effects of the retry loop: number of HTTP attempts
made, backoff sleep durations in order, and the token totals passed to
`block.update_metadata` in order (each such event also carries
`llm_request_count=1`). -/
structure LoopState : Type where
  attempts : Nat
  sleeps : List Nat
  updates : List Nat
deriving DecidableEq, Repr

/-- Line 145 of the HTTPError handler:
`status_code = e.response.status_code if e.response else None`, where `s` is
the HTTP status of the response that made `raise_for_status` raise. The
conditional tests the Response's truthiness, and `requests.Response.__bool__`
returns `self.ok`, i.e. `status_code < 400`; so for every response whose
status made `raise_for_status` raise (`400 ≤ s < 600`) this is `none`. -/
def status_code (s : Nat) : Option Nat :=
  if s < 400 then some s else none

/-- The retry loop of `OllamaService.__call__` (ollama.py lines 115-197).
`fuel` is the number of loop iterations still available, i.e.
`total_tries - attempt + 1` on entry; `attempt` is the 1-based index.
Each iteration performs one HTTP attempt; `fuel = 0` inside the body
corresponds to `attempt = total_tries`, where every handler breaks. -/
def retryLoop (wait : Nat) (blockPresent : Bool) (oracle : Nat → AttemptOutcome) :
    Nat → Nat → LoopState → LoopState × CallResult
  | 0, _, st => (st, .empty)
  | fuel + 1, attempt, st =>
    let st1 : LoopState := { st with attempts := st.attempts + 1 }
    match oracle attempt with
    | .ok p e resp =>
      let tokens := p.getD 0 + e.getD 0
      let st2 : LoopState :=
        if blockPresent then { st1 with updates := st1.updates ++ [tokens] } else st1
      match resp with
      | .good => (st2, .success)
      | .malformed =>
        if fuel = 0 then (st2, .empty)
        else retryLoop wait blockPresent oracle fuel (attempt + 1) st2
      | .missing => (st2, .empty)
    | .httpError s =>
      if status_code s = some 429 ∨ status_code s = some 500 ∨
          status_code s = some 503 then
        if fuel = 0 then (st1, .empty)
        else
          retryLoop wait blockPresent oracle fuel (attempt + 1)
            { st1 with sleeps := st1.sleeps ++ [attempt * wait] }
      else (st1, .empty)
    | .jsonError =>
      if fuel = 0 then (st1, .empty)
      else retryLoop wait blockPresent oracle fuel (attempt + 1) st1
    | .transportError =>
      if fuel = 0 then (st1, .empty)
      else
        retryLoop wait blockPresent oracle fuel (attempt + 1)
          { st1 with sleeps := st1.sleeps ++ [attempt * wait] }
    | .otherError => (st1, .empty)

/-- The pre-flight small-image guard (ollama.py lines 66-71): the call is
skipped when some supplied image has width < 28 or height < 28. Images are
modelled by their (width, height) pairs; `none` models `image is None`. -/
def passesImageGuard (images : Option (List (Nat × Nat))) : Bool :=
  match images with
  | none => true
  | some l => !(l.any fun wh => decide (wh.1 < 28) || decide (wh.2 < 28))

/-- Full observable behaviour of one `OllamaService.__call__` invocation. -/
structure CallTrace : Type where
  attempts : Nat
  sleeps : List Nat
  updates : List Nat
  result : CallResult
deriving DecidableEq, Repr

/-- `OllamaService.__call__` (ollama.py lines 46-200): small-image guard,
then schema preparation (whose `KeyError` is raised outside any handler),
then the retry loop with `total_tries = max_retries + 1`. `blockPresent`
models `block is not None`; `oracle` gives the backend's behaviour on each
1-based attempt. -/
def call (cfg : Config) (images : Option (List (Nat × Nat))) (blockPresent : Bool)
    (schema : JsonSchema) (oracle : Nat → AttemptOutcome) : CallTrace :=
  if passesImageGuard images = false then
    { attempts := 0, sleeps := [], updates := [], result := .empty }
  else
    match buildFormatSchema schema with
    | .error k => { attempts := 0, sleeps := [], updates := [], result := .keyError k }
    | .ok _ =>
      let r := retryLoop cfg.retry_wait_time blockPresent oracle (cfg.max_retries + 1) 1
        { attempts := 0, sleeps := [], updates := [] }
      { attempts := r.1.attempts, sleeps := r.1.sleeps, updates := r.1.updates,
        result := r.2 }

/-- Modelled from the spec: `Block.update_metadata` (marker.schema.blocks.Block,
not under src/) increments the block's `llm_request_count` and
`llm_tokens_used` counters by the supplied amounts. -/
def update_metadata (counters : Nat × Nat) (llm_request_count llm_tokens_used : Nat) :
    Nat × Nat :=
  (counters.1 + llm_request_count, counters.2 + llm_tokens_used)

/-- Replay the trace's `update_metadata` events against a block's prior
(`llm_request_count`, `llm_tokens_used`) counters. -/
def applyUpdates (counters : Nat × Nat) (updates : List Nat) : Nat × Nat :=
  updates.foldl (fun c tok => update_metadata c 1 tok) counters

end OllamaService

namespace PdfConverter

/-- The processor classes referenced by `PdfConverter` (pdf.py imports and
the `default_processors` tuple), one constructor per class. -/
inductive Processor : Type
  | order
  | blockRelabel
  | lineMerge
  | blockquote
  | code
  | documentTOC
  | equation
  | footnote
  | ignoreText
  | lineNumbers
  | list
  | pageHeader
  | sectionHeader
  | table
  | llmTable
  | llmTableMerge
  | llmForm
  | text
  | llmComplexRegion
  | llmImageDescription
  | llmEquation
  | llmHandwriting
  | llmMathBlock
  | llmSectionHeader
  | llmPageCorrection
  | reference
  | blankPage
  | debug
deriving DecidableEq, Repr, Fintype

/-- The converter configuration attributes consulted by
`_filter_processors_by_config` and `__init__` (pdf.py lines 70-114):
`use_llm` and the ten per-processor LLM toggles, each defaulting to `True`. -/
structure ConverterConfig : Type where
  use_llm : Bool := false
  enable_llm_table : Bool := true
  enable_llm_table_merge : Bool := true
  enable_llm_form : Bool := true
  enable_llm_complex_region : Bool := true
  enable_llm_image_description : Bool := true
  enable_llm_equation : Bool := true
  enable_llm_handwriting : Bool := true
  enable_llm_mathblock : Bool := true
  enable_llm_section_header : Bool := true
  enable_llm_page_correction : Bool := true
deriving DecidableEq, Repr

/-- The `default_processors` tuple (pdf.py lines 115-144), in source order. -/
def default_processors : List Processor :=
  [.order, .blockRelabel, .lineMerge, .blockquote, .code, .documentTOC,
   .equation, .footnote, .ignoreText, .lineNumbers, .list, .pageHeader,
   .sectionHeader, .table, .llmTable, .llmTableMerge, .llmForm, .text,
   .llmComplexRegion, .llmImageDescription, .llmEquation, .llmHandwriting,
   .llmMathBlock, .llmSectionHeader, .llmPageCorrection, .reference,
   .blankPage, .debug]

/-- The `llm_processor_toggles` dict of `_filter_processors_by_config`
(pdf.py lines 154-165): which config attribute governs each LLM processor;
`none` for processors not in the dict. -/
def llm_processor_toggles (cfg : ConverterConfig) : Processor → Option Bool
  | .llmTable => some cfg.enable_llm_table
  | .llmTableMerge => some cfg.enable_llm_table_merge
  | .llmForm => some cfg.enable_llm_form
  | .llmComplexRegion => some cfg.enable_llm_complex_region
  | .llmImageDescription => some cfg.enable_llm_image_description
  | .llmEquation => some cfg.enable_llm_equation
  | .llmHandwriting => some cfg.enable_llm_handwriting
  | .llmMathBlock => some cfg.enable_llm_mathblock
  | .llmSectionHeader => some cfg.enable_llm_section_header
  | .llmPageCorrection => some cfg.enable_llm_page_correction
  | _ => none

/-- `PdfConverter._filter_processors_by_config` (pdf.py lines 147-179): keep a
processor when it has no toggle entry, or when its toggle attribute is true.
Note that the body never consults `use_llm`. -/
def _filter_processors_by_config (cfg : ConverterConfig) (processors : List Processor) :
    List Processor :=
  processors.filter fun p =>
    match llm_processor_toggles cfg p with
    | some b => b
    | none => true

/-- The processor-list resolution in `PdfConverter.__init__` (pdf.py lines
197-201): an explicit list is taken as-is; otherwise the defaults are run
through `_filter_processors_by_config`. -/
def init_processor_list (cfg : ConverterConfig) (processor_list : Option (List Processor)) :
    List Processor :=
  match processor_list with
  | some l => l
  | none => _filter_processors_by_config cfg default_processors

/-- The processor loop of `PdfConverter.build_document` (pdf.py lines
264-265): each processor of `self.processor_list` is invoked once, in list
order; the trace records the invocations in order. -/
def build_document_trace (processor_list : List Processor) : List Processor :=
  processor_list.foldl (fun acc p => acc ++ [p]) []

/-- A filesystem abstraction for `filepath_to_str`: the set of existing file
paths, with paths modelled as naturals. -/
structure Fs : Type where
  files : List Nat
deriving DecidableEq, Repr

/-- `tempfile.NamedTemporaryFile` name generation: a path not currently in
use (one greater than the largest existing path). -/
def freshName (fs : Fs) : Nat :=
  fs.files.foldr max 0 + 1

/-- `os.unlink` guarded by `os.path.exists` (pdf.py lines 249-250): remove
the path when present, do nothing otherwise. -/
def unlinkIfExists (fs : Fs) (n : Nat) : Fs :=
  ⟨fs.files.filter fun m => m ≠ n⟩

/-- The converter's input: a filesystem path, or an in-memory byte buffer
(`io.BytesIO`). -/
inductive FileInput : Type
  | path (p : Nat)
  | bytes (b : List Nat)
deriving DecidableEq, Repr

/-- `PdfConverter.__call__` wrapped around `filepath_to_str` (pdf.py lines
229-250 and 269-275). `body` models the work done inside the `with` block
(builders, processors, renderer), given the resolved path; it either returns
a rendered result or raises (`Except.error`). For a path input no temp file
is made; for a byte buffer a fresh temp file is created, `body` runs on it,
and the `finally` clause unlinks it on both exit paths. -/
def call (fs : Fs) (input : FileInput) (body : Nat → Except Nat Nat) :
    Except Nat Nat × Fs :=
  match input with
  | .path p => (body p, fs)
  | .bytes _ =>
    let name := freshName fs
    let fs1 : Fs := ⟨name :: fs.files⟩
    let r := body name
    (r, unlinkIfExists fs1 name)

end PdfConverter

namespace OllamaService

lemma status_code_never_retriable (s : Nat) :
    ¬(status_code s = some 429 ∨ status_code s = some 500 ∨
      status_code s = some 503) := by
  by_cases h : s < 400
  · simp only [status_code, if_pos h]
    intro hc
    rcases hc with hc | hc | hc <;> (rw [Option.some.injEq] at hc; omega)
  · simp [status_code, if_neg h]

lemma retryLoop_result_cases (w : Nat) (bp : Bool) (o : Nat → AttemptOutcome) :
    ∀ fuel attempt st,
      (retryLoop w bp o fuel attempt st).2 = CallResult.empty ∨
      (retryLoop w bp o fuel attempt st).2 = CallResult.success := by
  intro fuel
  induction fuel with
  | zero => exact fun _ _ => Or.inl rfl
  | succ n ih =>
    intro attempt st
    cases ho : o attempt with
    | ok p e r =>
      cases r with
      | good => rw [retryLoop]; simp [ho]
      | malformed =>
        rw [retryLoop]
        by_cases hn : n = 0
        · subst hn; simp [ho]
        · simp only [ho, hn, if_false, if_neg hn]
          exact ih _ _
      | missing => rw [retryLoop]; simp [ho]
    | httpError s =>
      rw [retryLoop]
      simp [ho, status_code_never_retriable s]
    | jsonError =>
      rw [retryLoop]
      by_cases hn : n = 0
      · subst hn; simp [ho]
      · simp only [ho, if_neg hn]
        exact ih _ _
    | transportError =>
      rw [retryLoop]
      by_cases hn : n = 0
      · subst hn; simp [ho]
      · simp only [ho, if_neg hn]
        exact ih _ _
    | otherError => rw [retryLoop]; simp [ho]

lemma call_eq_loop (cfg : Config) (images : Option (List (Nat × Nat))) (bp : Bool)
    (schema : JsonSchema) (o : Nat → AttemptOutcome) (ps rs : List String)
    (hg : passesImageGuard images = true)
    (hp : schema.properties = some ps) (hr : schema.required = some rs) :
    call cfg images bp schema o =
      { attempts :=
          (retryLoop cfg.retry_wait_time bp o (cfg.max_retries + 1) 1
            { attempts := 0, sleeps := [], updates := [] }).1.attempts,
        sleeps :=
          (retryLoop cfg.retry_wait_time bp o (cfg.max_retries + 1) 1
            { attempts := 0, sleeps := [], updates := [] }).1.sleeps,
        updates :=
          (retryLoop cfg.retry_wait_time bp o (cfg.max_retries + 1) 1
            { attempts := 0, sleeps := [], updates := [] }).1.updates,
        result :=
          (retryLoop cfg.retry_wait_time bp o (cfg.max_retries + 1) 1
            { attempts := 0, sleeps := [], updates := [] }).2 } := by
  simp [call, hg, buildFormatSchema, hp, hr]

end OllamaService

namespace OllamaService

/-- C3 (code bug): the claimed retry-with-backoff for HTTP 429/500/503 is
dead code. At ollama.py:145 `status_code = e.response.status_code if
e.response else None` tests the Response's truthiness, and an error
response is falsy (`requests.Response.__bool__` is `ok`, i.e.
status < 400), so `status_code` is `None` for every `raise_for_status`
error and the 429/500/503 branch (lines 148-159, whose logging promises
"Retrying in ...s") is never taken: with `max_retries = 2` a backend
answering HTTP 500 on every attempt gets exactly 1 attempt, no sleep, and
the empty mapping — not the claimed 3 attempts with sleeps `[wait, 2*wait]`.
A backend failing with transport errors on every attempt does behave as the
claim says: 3 attempts with sleeps `[7, 14]` at `retry_wait_time = 7`. -/
theorem claim_C3_http_not_retried :
    call { max_retries := 2, retry_wait_time := 7 } none false
        { properties := some ["a"], required := some ["a"], defs := none }
        (fun _ => AttemptOutcome.httpError 500) =
      { attempts := 1, sleeps := [], updates := [], result := .empty } ∧
    call { max_retries := 2, retry_wait_time := 7 } none false
        { properties := some ["a"], required := some ["a"], defs := none }
        (fun _ => AttemptOutcome.transportError) =
      { attempts := 3, sleeps := [7, 14], updates := [], result := .empty } := by
  decide

/-- C4: `__call__` never raises for the ordinary failure classes (HTTP
errors, malformed JSON bodies, network errors, timeouts): whatever the
backend does on each attempt, the call ends by returning the empty mapping
or the parsed mapping, never by propagating an exception. -/
theorem claim_C4_no_raise (cfg : Config) (images : Option (List (Nat × Nat)))
    (bp : Bool) (schema : JsonSchema) (o : Nat → AttemptOutcome) (ps rs : List String)
    (hp : schema.properties = some ps) (hr : schema.required = some rs) :
    (call cfg images bp schema o).result = CallResult.empty ∨
    (call cfg images bp schema o).result = CallResult.success := by
  cases hg : passesImageGuard images with
  | false => left; simp [call, hg]
  | true =>
    rw [call_eq_loop cfg images bp schema o ps rs hg hp hr]
    exact retryLoop_result_cases cfg.retry_wait_time bp o (cfg.max_retries + 1) 1
      { attempts := 0, sleeps := [], updates := [] }

theorem claim_C4_no_raise_witness :
    (({ properties := some ["a"], required := some ["a"], defs := none } :
        JsonSchema).properties = some ["a"]) ∧
    (({ properties := some ["a"], required := some ["a"], defs := none } :
        JsonSchema).required = some ["a"]) ∧
    ((call { max_retries := 1, retry_wait_time := 2 } none false
        { properties := some ["a"], required := some ["a"], defs := none }
        (fun _ => AttemptOutcome.jsonError)).result = CallResult.empty ∨
      (call { max_retries := 1, retry_wait_time := 2 } none false
        { properties := some ["a"], required := some ["a"], defs := none }
        (fun _ => AttemptOutcome.jsonError)).result = CallResult.success) :=
  ⟨rfl, rfl,
    claim_C4_no_raise { max_retries := 1, retry_wait_time := 2 } none false
      { properties := some ["a"], required := some ["a"], defs := none }
      (fun _ => AttemptOutcome.jsonError) ["a"] ["a"] rfl rfl⟩

/-- C5: when the first attempt fails with a non-retriable error (the
catch-all exception class, or an HTTP error whose status is outside
{429, 500, 503}), exactly one attempt is made, no backoff sleep occurs,
and the empty mapping is returned. -/
theorem claim_C5_nonretriable (cfg : Config) (images : Option (List (Nat × Nat)))
    (bp : Bool) (schema : JsonSchema) (o : Nat → AttemptOutcome) (ps rs : List String)
    (hg : passesImageGuard images = true)
    (hp : schema.properties = some ps) (hr : schema.required = some rs)
    (hfail : o 1 = AttemptOutcome.otherError ∨
      ∃ s, o 1 = AttemptOutcome.httpError s ∧
        ¬(s = 429 ∨ s = 500 ∨ s = 503)) :
    call cfg images bp schema o =
      { attempts := 1, sleeps := [], updates := [], result := .empty } := by
  rw [call_eq_loop cfg images bp schema o ps rs hg hp hr]
  rcases hfail with h1 | ⟨s, h1, hs⟩
  · rw [retryLoop]
    simp [h1]
  · rw [retryLoop]
    simp [h1, status_code_never_retriable s]

theorem claim_C5_nonretriable_witness :
    passesImageGuard none = true ∧
    ¬((404 : Nat) = 429 ∨ (404 : Nat) = 500 ∨ (404 : Nat) = 503) ∧
    call { max_retries := 3, retry_wait_time := 5 } none true
        { properties := some ["a"], required := some ["a"], defs := none }
        (fun _ => AttemptOutcome.httpError 404) =
      { attempts := 1, sleeps := [], updates := [], result := .empty } :=
  ⟨rfl, by decide,
    claim_C5_nonretriable { max_retries := 3, retry_wait_time := 5 } none true
      { properties := some ["a"], required := some ["a"], defs := none }
      (fun _ => AttemptOutcome.httpError 404) ["a"] ["a"] rfl rfl rfl
      (Or.inr ⟨404, rfl, by decide⟩)⟩

/-- C6: when any supplied image is smaller than the 28x28 minimum (its
width < 28 or height < 28), the call performs zero HTTP attempts, sleeps
never, touches no block counters, and returns the empty mapping. -/
theorem claim_C6_small_image_guard (cfg : Config) (l : List (Nat × Nat))
    (wh : Nat × Nat) (bp : Bool) (schema : JsonSchema) (o : Nat → AttemptOutcome)
    (hmem : wh ∈ l) (hsmall : wh.1 < 28 ∨ wh.2 < 28) :
    call cfg (some l) bp schema o =
      { attempts := 0, sleeps := [], updates := [], result := .empty } := by
  have hguard : passesImageGuard (some l) = false := by
    simp only [passesImageGuard, Bool.not_eq_false', List.any_eq_true]
    exact ⟨wh, hmem, by simpa using hsmall⟩
  simp [call, hguard]

theorem claim_C6_small_image_guard_witness :
    ((20, 40) : Nat × Nat) ∈ [((20, 40) : Nat × Nat)] ∧
    (((20, 40) : Nat × Nat).1 < 28 ∨ ((20, 40) : Nat × Nat).2 < 28) ∧
    call { max_retries := 2, retry_wait_time := 3 } (some [(20, 40)]) true
        { properties := some ["a"], required := some ["a"], defs := none }
        (fun _ => AttemptOutcome.ok (some 1) (some 1) RespField.good) =
      { attempts := 0, sleeps := [], updates := [], result := .empty } :=
  ⟨by decide, by decide,
    claim_C6_small_image_guard { max_retries := 2, retry_wait_time := 3 }
      [(20, 40)] (20, 40) true
      { properties := some ["a"], required := some ["a"], defs := none }
      (fun _ => AttemptOutcome.ok (some 1) (some 1) RespField.good)
      (by decide) (by decide)⟩

/-- C7: the `format` field of the outgoing payload carries the schema's
properties and required fields, and inlines the schema's `$defs` exactly
when the rendered JSON schema contains shared sub-definitions — the
format's `$defs` entry equals the schema's own (absent when absent). -/
theorem claim_C7_schema_inlining (schema : JsonSchema) (ps rs : List String)
    (hp : schema.properties = some ps) (hr : schema.required = some rs) :
    buildFormatSchema schema =
      Except.ok { properties := ps, required := rs, defs := schema.defs } := by
  simp [buildFormatSchema, hp, hr]

theorem claim_C7_schema_inlining_witness :
    (({ properties := some ["a"], required := some ["a"], defs := some ["Sub"] } :
        JsonSchema).properties = some ["a"]) ∧
    buildFormatSchema
        { properties := some ["a"], required := some ["a"], defs := some ["Sub"] } =
      Except.ok { properties := ["a"], required := ["a"], defs := some ["Sub"] } :=
  ⟨rfl,
    claim_C7_schema_inlining
      { properties := some ["a"], required := some ["a"], defs := some ["Sub"] }
      ["a"] ["a"] rfl rfl⟩

end OllamaService

namespace OllamaService

/-- C2 (counterexample): the claim that block counters are incremented by
exactly 1 request and the usage sum, and only for successful calls, is
false: with `max_retries = 1`, a first attempt whose HTTP body parses
(usage 10 + 5) but whose `response` field is malformed JSON, followed by a
good second attempt, yields one successful call whose block counters were
incremented twice — prior (2, 100) becomes (4, 130), not (3, 115). -/
theorem claim_C2_counterexample :
    (call { max_retries := 1, retry_wait_time := 5 } none true
        { properties := some ["a"], required := some ["a"], defs := none }
        (fun k => if k = 1 then AttemptOutcome.ok (some 10) (some 5) RespField.malformed
                  else AttemptOutcome.ok (some 10) (some 5) RespField.good)).result =
      CallResult.success ∧
    applyUpdates (2, 100)
        (call { max_retries := 1, retry_wait_time := 5 } none true
          { properties := some ["a"], required := some ["a"], defs := none }
          (fun k => if k = 1 then AttemptOutcome.ok (some 10) (some 5) RespField.malformed
                    else AttemptOutcome.ok (some 10) (some 5) RespField.good)).updates =
      (4, 130) ∧
    applyUpdates (2, 100)
        (call { max_retries := 1, retry_wait_time := 5 } none true
          { properties := some ["a"], required := some ["a"], defs := none }
          (fun k => if k = 1 then AttemptOutcome.ok (some 10) (some 5) RespField.malformed
                    else AttemptOutcome.ok (some 10) (some 5) RespField.good)).updates ≠
      (3, 115) := by
  decide

/-- C2 (amended): counters are updated on every attempt whose HTTP response
is received and whose body parses, not only on successful calls; in
particular, a call that succeeds on its first attempt with a target block
increments the block's request count by exactly 1 and its token count by
`prompt_eval_count + eval_count` (each 0 when unreported), e.g. prior
(2, 100) with usage (10, 5) becomes (3, 115). -/
theorem claim_C2_accounting (cfg : Config) (images : Option (List (Nat × Nat)))
    (schema : JsonSchema) (o : Nat → AttemptOutcome) (ps rs : List String)
    (p e : Option Nat) (c t : Nat)
    (hg : passesImageGuard images = true)
    (hp : schema.properties = some ps) (hr : schema.required = some rs)
    (h1 : o 1 = AttemptOutcome.ok p e RespField.good) :
    (call cfg images true schema o).result = CallResult.success ∧
    (call cfg images true schema o).updates = [p.getD 0 + e.getD 0] ∧
    applyUpdates (c, t) (call cfg images true schema o).updates =
      (c + 1, t + (p.getD 0 + e.getD 0)) := by
  rw [call_eq_loop cfg images true schema o ps rs hg hp hr]
  rw [retryLoop]
  simp [h1, applyUpdates, update_metadata]

theorem claim_C2_accounting_witness :
    passesImageGuard none = true ∧
    (call { max_retries := 2, retry_wait_time := 3 } none true
        { properties := some ["a"], required := some ["a"], defs := none }
        (fun _ => AttemptOutcome.ok (some 10) (some 5) RespField.good)).result =
      CallResult.success ∧
    applyUpdates (2, 100)
        (call { max_retries := 2, retry_wait_time := 3 } none true
          { properties := some ["a"], required := some ["a"], defs := none }
          (fun _ => AttemptOutcome.ok (some 10) (some 5) RespField.good)).updates =
      (3, 115) :=
  ⟨rfl,
    (claim_C2_accounting { max_retries := 2, retry_wait_time := 3 } none
      { properties := some ["a"], required := some ["a"], defs := none }
      (fun _ => AttemptOutcome.ok (some 10) (some 5) RespField.good)
      ["a"] ["a"] (some 10) (some 5) 2 100 rfl rfl rfl rfl).1,
    (claim_C2_accounting { max_retries := 2, retry_wait_time := 3 } none
      { properties := some ["a"], required := some ["a"], defs := none }
      (fun _ => AttemptOutcome.ok (some 10) (some 5) RespField.good)
      ["a"] ["a"] (some 10) (some 5) 2 100 rfl rfl rfl rfl).2.2⟩

/-- C10 (counterexample): the claim that every call whose schema lacks a
`required` key raises an uncaught `KeyError` is false: when a supplied
image is under the 28x28 minimum, the small-image guard returns the empty
mapping before schema preparation runs, so no `KeyError` is raised. -/
theorem claim_C10_counterexample :
    (({ properties := some ["a"], required := none, defs := none } :
        JsonSchema).required = none) ∧
    call { max_retries := 2, retry_wait_time := 1 } (some [(20, 40)]) true
        { properties := some ["a"], required := none, defs := none }
        (fun _ => AttemptOutcome.otherError) =
      { attempts := 0, sleeps := [], updates := [], result := .empty } ∧
    (call { max_retries := 2, retry_wait_time := 1 } (some [(20, 40)]) true
        { properties := some ["a"], required := none, defs := none }
        (fun _ => AttemptOutcome.otherError)).result ≠
      CallResult.keyError "required" := by
  decide

/-- C10 (amended): for every call not short-circuited by the small-image
guard whose rendered schema has a `properties` key but no `required` key,
schema preparation raises an uncaught `KeyError` for `"required"` before
any HTTP attempt is made; the error is outside the retry loop's handlers
and is not converted to an empty mapping. -/
theorem claim_C10_keyerror (cfg : Config) (images : Option (List (Nat × Nat)))
    (bp : Bool) (schema : JsonSchema) (o : Nat → AttemptOutcome) (ps : List String)
    (hg : passesImageGuard images = true)
    (hp : schema.properties = some ps) (hr : schema.required = none) :
    call cfg images bp schema o =
      { attempts := 0, sleeps := [], updates := [],
        result := .keyError "required" } := by
  simp [call, hg, buildFormatSchema, hp, hr]

theorem claim_C10_keyerror_witness :
    passesImageGuard none = true ∧
    (({ properties := some ["a"], required := none, defs := none } :
        JsonSchema).required = none) ∧
    call { max_retries := 2, retry_wait_time := 1 } none true
        { properties := some ["a"], required := none, defs := none }
        (fun _ => AttemptOutcome.otherError) =
      { attempts := 0, sleeps := [], updates := [],
        result := .keyError "required" } :=
  ⟨rfl, rfl,
    claim_C10_keyerror { max_retries := 2, retry_wait_time := 1 } none true
      { properties := some ["a"], required := none, defs := none }
      (fun _ => AttemptOutcome.otherError) ["a"] rfl rfl rfl⟩

end OllamaService

namespace PdfConverter

lemma mem_le_foldr_max (x : Nat) : ∀ l : List Nat, x ∈ l → x ≤ l.foldr max 0 := by
  intro l
  induction l with
  | nil => intro h; cases h
  | cons a l ih =>
    intro h
    rcases List.mem_cons.mp h with rfl | h2
    · exact le_max_left _ _
    · exact le_trans (ih h2) (le_max_right _ _)

lemma freshName_not_mem (fs : Fs) : freshName fs ∉ fs.files := by
  intro h
  have hle := mem_le_foldr_max _ _ h
  simp only [freshName] at hle
  omega

/-- C1: contrary to the claim (and the code's own docstring, pdf.py lines
150-151), the per-processor LLM toggles are not gated on `use_llm`: with
`use_llm = False` and `enable_llm_table = False` and no explicit processor
list, `__init__` still resolves a processor list with `LLMTableProcessor`
removed — the toggle takes effect although the LLM feature is globally
disabled. -/
theorem claim_C1_toggle_not_gated_on_use_llm :
    ({ use_llm := false, enable_llm_table := false } : ConverterConfig).use_llm = false ∧
    Processor.llmTable ∈ default_processors ∧
    Processor.llmTable ∉
      init_processor_list { use_llm := false, enable_llm_table := false } none ∧
    init_processor_list { use_llm := false, enable_llm_table := false } none =
      default_processors.filter fun q => q ≠ Processor.llmTable := by
  decide

/-- C8: with the default configuration and no explicit processor list, the
processor loop of `build_document` runs the processors in exactly the
claimed fixed total order — ordering, relabel, merge-adjacent-lines, the
deterministic type-specific processors, the LLM table/table-merge/form
processors, text, the remaining LLM processors, then reference, blank-page
and debug — and each processor runs exactly once. -/
theorem claim_C8_default_order :
    build_document_trace (init_processor_list {} none) =
      [.order, .blockRelabel, .lineMerge, .blockquote, .code, .documentTOC,
       .equation, .footnote, .ignoreText, .lineNumbers, .list, .pageHeader,
       .sectionHeader, .table, .llmTable, .llmTableMerge, .llmForm, .text,
       .llmComplexRegion, .llmImageDescription, .llmEquation, .llmHandwriting,
       .llmMathBlock, .llmSectionHeader, .llmPageCorrection, .reference,
       .blankPage, .debug] ∧
    ∀ p : Processor, (build_document_trace (init_processor_list {} none)).count p = 1 := by
  decide

/-- C9: converting an in-memory byte buffer materializes it to a fresh
temporary file, runs the conversion body on that file's path, and removes
the temporary file on every exit path: whatever the body does — return a
rendered result or raise — the final filesystem equals the initial one. -/
theorem claim_C9_tempfile_cleanup (fs : Fs) (b : List Nat)
    (body : Nat → Except Nat Nat) :
    (PdfConverter.call fs (.bytes b) body).1 = body (freshName fs) ∧
    freshName fs ∉ fs.files ∧
    (PdfConverter.call fs (.bytes b) body).2 = fs := by
  obtain ⟨files⟩ := fs
  refine ⟨rfl, freshName_not_mem ⟨files⟩, ?_⟩
  have hmem := freshName_not_mem ⟨files⟩
  show unlinkIfExists ⟨freshName ⟨files⟩ :: files⟩ (freshName ⟨files⟩) = ⟨files⟩
  simp only [unlinkIfExists, Fs.mk.injEq, List.filter_cons]
  simp only [ne_eq, not_true_eq_false, decide_False, Bool.false_eq_true, if_false]
  exact List.filter_eq_self.mpr fun a ha => by
    simp only [decide_eq_true_eq]
    intro hEq
    exact hmem (hEq ▸ ha)

end PdfConverter
